import Mathlib

/-!
Verification of the Go types generator of the ocm-api-metamodel repository
(`pkg/generators/golang/types_generator.go`) and of the server adapter
behaviour exercised by the server tests.

The embedding is shallow: the model graph entities (types, attributes) become
Lean inductive types, the pure helper functions of the generator become Lean
functions, the runtime semantics of the *generated* Go code (accessors, list
containers, `Empty()`) become functions over explicit optional receivers
(`Option` models a Go nil pointer), and the generated server adapter routing —
whose generated code is not part of the repository slice, only its tests — is
modelled from the specification's routing contract.
-/

namespace OcmTypes

/-- Model types.  `Type` in the model is one of Scalar, Enum, Struct, List,
Map; scalars are the fixed set Boolean, Integer, Long, Float, String, Date,
Interface.  A struct may be marked `class` and carries its name. -/
inductive MType where
  | boolean : MType
  | integer : MType
  | long : MType
  | floatScalar : MType
  | stringScalar : MType
  | date : MType
  | interfaceScalar : MType
  | enum (name : String) : MType
  | structure_ (name : String) (isClass : Bool) : MType
  | list (elem : MType) : MType
  | mapType (key : MType) (elem : MType) : MType
deriving DecidableEq, Repr

/-- `Type.IsScalar`: true exactly for the built-in scalar kinds. -/
def MType.isScalar : MType → Bool
  | .boolean | .integer | .long | .floatScalar | .stringScalar
  | .date | .interfaceScalar => true
  | _ => false

/-- `Type.IsEnum`. -/
def MType.isEnum : MType → Bool
  | .enum _ => true
  | _ => false

/-- `Type.IsStruct`. -/
def MType.isStruct : MType → Bool
  | .structure_ _ _ => true
  | _ => false

/-- `Type.IsList`. -/
def MType.isList : MType → Bool
  | .list _ => true
  | _ => false

/-- `Type.IsMap`. -/
def MType.isMap : MType → Bool
  | .mapType _ _ => true
  | _ => false

/-- `Type.IsClass`: true for structs marked `class`. -/
def MType.isClass : MType → Bool
  | .structure_ _ c => c
  | _ => false

/-- An attribute of a struct type: a name, a referenced type, and the `link`
flag. -/
structure Attr where
  name : String
  typ : MType
  link : Bool
deriving DecidableEq, Repr

/-- A reference form produced by the types calculator.  The calculator itself
is an external collaborator; the generator only chooses which of its three
constructors to call (`ValueReference`, `NullableReference`, `ListReference`),
so the choice is represented by a tagged constructor applied to the model
type.  `emptyRef` is the `&TypeReference\x7b\x7d` fallback value. -/
inductive TypeReference where
  | valueRef (t : MType) : TypeReference
  | nullableRef (t : MType) : TypeReference
  | listRef (t : MType) : TypeReference
  | emptyRef : TypeReference
deriving DecidableEq, Repr

/-- `TypesGenerator.getterType`: the switch over the attribute's type kind.
The second component records whether `reporter.Errorf` was invoked (the Go
code reports an error and falls back to an empty reference when no case of
the switch applies, leaving `ref` nil). -/
def getterType (a : Attr) : TypeReference × Bool :=
  let typ := a.typ
  let ref : Option TypeReference :=
    if typ.isScalar then some (.valueRef typ)
    else if typ.isStruct then some (.nullableRef typ)
    else if typ.isList then
      if a.link then some (.listRef typ) else some (.nullableRef typ)
    else if typ.isMap then some (.nullableRef typ)
    else none
  match ref with
  | some r => (r, false)
  | none => (.emptyRef, true)

/-- `TypesGenerator.fieldType`: identical switch except that scalars get a
nullable reference instead of a value reference. -/
def fieldType (a : Attr) : TypeReference × Bool :=
  let typ := a.typ
  let ref : Option TypeReference :=
    if typ.isScalar then some (.nullableRef typ)
    else if typ.isStruct then some (.nullableRef typ)
    else if typ.isList then
      if a.link then some (.listRef typ) else some (.nullableRef typ)
    else if typ.isMap then some (.nullableRef typ)
    else none
  match ref with
  | some r => (r, false)
  | none => (.emptyRef, true)

/-- The final error check of `TypesGenerator.Run`: given the number of
accumulated reporter errors and whether some generation step returned an
error early (file-buffer creation or write), produce the run's result.
`none` means `Run` returned nil; `some msg` the error message. -/
def runOutcome (stepError : Option String) (errors : Nat) : Option String :=
  match stepError with
  | some e => some e
  | none =>
    if errors > 0 then
      if errors > 1 then some ("there were " ++ toString errors ++ " errors")
      else some "there was 1 error"
    else none

/-- The configuration held by `TypesGeneratorBuilder`: six settable values.
Pointer-valued ones are `Option`; `output` is a Go string whose unset state
is the empty string.  The component types are opaque parameters since the
builder never inspects them. -/
structure GeneratorBuilder (R M P N T : Type) where
  reporter : Option R
  model : Option M
  output : String
  packages : Option P
  names : Option N
  types : Option T

/-- The generator produced by a successful `Build`: the six values plus the
error counter, which starts at zero. -/
structure Generator (R M P N T : Type) where
  reporter : R
  errors : Nat
  model : M
  output : String
  packages : P
  names : N
  types : T

/-- `TypesGeneratorBuilder.Build`: checks the mandatory parameters in order
and either fails with the corresponding message or returns the generator. -/
def GeneratorBuilder.build {R M P N T : Type} (b : GeneratorBuilder R M P N T) :
    Except String (Generator R M P N T) :=
  match b.reporter with
  | none => .error "reporter is mandatory"
  | some r =>
    match b.model with
    | none => .error "model is mandatory"
    | some m =>
      if b.output = "" then .error "output is mandatory"
      else
        match b.packages with
        | none => .error "packages calculator is mandatory"
        | some p =>
          match b.names with
          | none => .error "names calculator is mandatory"
          | some n =>
            match b.types with
            | none => .error "types calculator is mandatory"
            | some t =>
              .ok { reporter := r, errors := 0, model := m, output := b.output
                    packages := p, names := n, types := t }

/-! ## The emitted declarations of `generateStructTypeSource`

The template of `generateStructTypeSource` is a fixed sequence of
declarations, some guarded by `.Type.IsClass`, and a block of getters per
attribute.  The emission is modelled as the list of declaration groups the
template produces, in template order. -/

/-- One group of declarations emitted by the struct-type template. -/
inductive EmitItem where
  | objectKindConsts : EmitItem
  | structDecl (attrs : List Attr) : EmitItem
  | classAccessors : EmitItem
  | emptyMethod : EmitItem
  | attrGetter (a : Attr) : EmitItem
  | listKindConsts : EmitItem
  | listDecl : EmitItem
  | listClassAccessors : EmitItem
  | listLenMethod : EmitItem
  | listEmptyMethod : EmitItem
  | listGetMethod : EmitItem
  | listSliceMethod : EmitItem
  | listEachMethod : EmitItem
  | listRangeMethod : EmitItem
deriving DecidableEq, Repr

/-- `generateStructTypeSource`: the sequence of declaration groups the
struct-type template emits for a struct with the given `class` mark and
attributes.  The object kind constants, the class accessors and the list
container's Kind/Link/HREF accessors are inside `if .Type.IsClass` guards;
the three list kind constants are not guarded. -/
def generateStructTypeSource (isClass : Bool) (attrs : List Attr) : List EmitItem :=
  (if isClass then [.objectKindConsts] else []) ++
  [.structDecl attrs] ++
  (if isClass then [.classAccessors] else []) ++
  [.emptyMethod] ++
  attrs.map EmitItem.attrGetter ++
  [.listKindConsts, .listDecl] ++
  (if isClass then [.listClassAccessors] else []) ++
  [.listLenMethod, .listEmptyMethod, .listGetMethod, .listSliceMethod,
   .listEachMethod, .listRangeMethod]

/-! ## Runtime semantics of the generated Go code

A Go nil pointer is `Option.none`; a Go slice is `Option (List _)` where
`none` is the nil slice (its `len` is 0, like the empty slice's). -/

/-- A runtime scalar value of the generated code. -/
inductive ScalarLit where
  | boolLit (b : Bool) : ScalarLit
  | intLit (n : Int) : ScalarLit
  | strLit (s : String) : ScalarLit
  | dateLit (s : String) : ScalarLit
  | interfaceLit : ScalarLit
deriving DecidableEq, Repr

mutual
/-- The runtime value stored in one generated struct field, by field form:
nullable scalar pointer, struct pointer, list-container pointer (link
lists), plain Go slice (non-link lists), or Go map. -/
inductive FieldVal where
  | scalarField (v : Option ScalarLit) : FieldVal
  | structField (v : Option ObjVal) : FieldVal
  | listLinkField (v : Option ListVal) : FieldVal
  | listField (v : Option (List ObjVal)) : FieldVal
  | mapField (v : Option (List (String × ScalarLit))) : FieldVal

/-- A runtime value of a generated struct type: the implicit class fields
`id`, `href`, `link` (meaningless when the struct is not a class) and one
value per declared attribute, in declaration order. -/
inductive ObjVal where
  | mk (id : Option String) (href : Option String) (link : Bool)
      (fields : List FieldVal) : ObjVal

/-- A runtime value of a generated `<Name>List` container: fields `href`,
`link`, `items`. -/
inductive ListVal where
  | mk (href : Option String) (link : Bool) (items : List ObjVal) : ListVal
end

def ObjVal.id : ObjVal → Option String
  | .mk i _ _ _ => i

def ObjVal.href : ObjVal → Option String
  | .mk _ h _ _ => h

def ObjVal.link : ObjVal → Bool
  | .mk _ _ l _ => l

def ObjVal.fields : ObjVal → List FieldVal
  | .mk _ _ _ fs => fs

def ListVal.href : ListVal → Option String
  | .mk h _ _ => h

def ListVal.link : ListVal → Bool
  | .mk _ l _ => l

def ListVal.items : ListVal → List ObjVal
  | .mk _ _ xs => xs

/-- The generated `Len()` of a list container: 0 on a nil receiver, the
length of `items` otherwise. -/
def listLen : Option ListVal → Nat
  | none => 0
  | some l => l.items.length

/-- Semantics of the Go expression `o.f == nil` for a scalar field. -/
def scalarIsNil : FieldVal → Bool
  | .scalarField w => w.isNone
  | _ => true

/-- Semantics of the Go expression `o.f.Len()` for a link-list field (the
generated `Len` tolerates a nil container). -/
def linkFieldLen : FieldVal → Nat
  | .listLinkField w => listLen w
  | _ => 0

/-- Semantics of the Go expression `len(o.f)` for a plain slice field. -/
def sliceFieldLen : FieldVal → Nat
  | .listField (some xs) => xs.length
  | _ => 0

/-- Semantics of the Go expression `len(o.f)` for a map field. -/
def mapFieldLen : FieldVal → Nat
  | .mapField (some es) => es.length
  | _ => 0

/-- The conjunct the `Empty()` template emits for one attribute: a nil check
for scalars, a length check for lists (container length when `link`,
`len` of the slice otherwise) and maps, and nothing (`true`) for any other
attribute type — in particular struct-typed attributes contribute no
conjunct. -/
def emptyConjunct (a : Attr) (v : FieldVal) : Bool :=
  if a.typ.isScalar then scalarIsNil v
  else if a.typ.isList then
    if a.link then linkFieldLen v == 0
    else sliceFieldLen v == 0
  else if a.typ.isMap then mapFieldLen v == 0
  else true

/-- The generated `Empty()` of a struct type: `o == nil ||` the conjunction
of `o.id == nil` (only when the struct is a class) and the per-attribute
conjuncts. -/
def structEmpty (isClass : Bool) (attrs : List Attr) : Option ObjVal → Bool
  | none => true
  | some o =>
    (!isClass || o.id.isNone) &&
    ((attrs.zip o.fields).all fun p => emptyConjunct p.1 p.2)

/-- Whether a runtime field value is in the zero/empty state of its form:
nil pointer for scalars and structs, length zero for lists (link or not)
and maps. -/
def fieldIsZero : FieldVal → Bool
  | .scalarField w => w.isNone
  | .structField w => w.isNone
  | .listLinkField w => listLen w == 0
  | .listField none => true
  | .listField (some xs) => xs.length == 0
  | .mapField none => true
  | .mapField (some es) => es.length == 0

/-- Every field of the object is in its zero/empty state (for class structs
this includes the implicit `id`, `href` and `link` fields). -/
def allFieldsZero (isClass : Bool) (o : ObjVal) : Bool :=
  (!isClass || (o.id.isNone && o.href.isNone && !o.link)) &&
  o.fields.all fieldIsZero

/-- The per-attribute condition the generated `Empty()` effectively
checks: struct-typed attributes are not examined; every other attribute
must be in the zero/empty state of its form. -/
def checkedFieldZero (a : Attr) (v : FieldVal) : Bool :=
  if a.typ.isStruct then true else fieldIsZero v

/-- A runtime field value has the shape the attribute's declared type gives
its field form. -/
def shapeMatches (a : Attr) (v : FieldVal) : Bool :=
  match v with
  | .scalarField _ => a.typ.isScalar
  | .structField _ => a.typ.isStruct
  | .listLinkField _ => a.typ.isList && a.link
  | .listField _ => a.typ.isList && !a.link
  | .mapField _ => a.typ.isMap

/-! ## Generated accessor methods

Each method is a function of its (possibly nil) receiver.  The kind
constants take the object or list name as a parameter, exactly as the
template interpolates `objectName`/`listName`. -/

/-- The `<Name>Kind` constant. -/
def kindConst (name : String) : String := name

/-- The `<Name>LinkKind` constant. -/
def linkKindConst (name : String) : String := name ++ "Link"

/-- The `<Name>NilKind` constant. -/
def nilKindConst (name : String) : String := name ++ "Nil"

/-- The generated `Kind()` of a class struct. -/
def objKind (name : String) : Option ObjVal → String
  | none => nilKindConst name
  | some o => if o.link then linkKindConst name else kindConst name

/-- The generated `ID()` of a class struct. -/
def objID : Option ObjVal → String
  | some o =>
    match o.id with
    | some v => v
    | none => ""
  | none => ""

/-- The generated `GetID()` of a class struct. -/
def objGetID : Option ObjVal → String × Bool
  | some o =>
    match o.id with
    | some v => (v, true)
    | none => ("", false)
  | none => ("", false)

/-- The generated `Link()` of a class struct: `o != nil && o.link`. -/
def objLink : Option ObjVal → Bool
  | some o => o.link
  | none => false

/-- The generated `HREF()` of a class struct. -/
def objHREF : Option ObjVal → String
  | some o =>
    match o.href with
    | some v => v
    | none => ""
  | none => ""

/-- The generated `GetHREF()` of a class struct. -/
def objGetHREF : Option ObjVal → String × Bool
  | some o =>
    match o.href with
    | some v => (v, true)
    | none => ("", false)
  | none => ("", false)

/-- The generated value getter for a scalar attribute: dereference the
nullable field when receiver and field are non-nil, else the zero value
(`f` projects the field from the receiver, generically over the emitted
per-attribute getters). -/
def valueGetter {S V : Type} (zero : V) (f : S → Option V) : Option S → V
  | some o =>
    match f o with
    | some v => v
    | none => zero
  | none => zero

/-- The generated getter for a struct-, list- or map-typed attribute:
`if o == nil return nil; return o.field`. -/
def refGetter {S V : Type} (f : S → Option V) : Option S → Option V
  | some o => f o
  | none => none

/-- The generated probing getter `Get<Name>()`: `ok = o != nil && o.field
!= nil`, value dereferenced when ok and otherwise left at the Go zero
value of the getter type. -/
def probeGetter {S V : Type} (zero : V) (f : S → Option V) : Option S → V × Bool
  | some o =>
    match f o with
    | some v => (v, true)
    | none => (zero, false)
  | none => (zero, false)

/-- The generated `Kind()` of a list container. -/
def listKind (listName : String) : Option ListVal → String
  | none => nilKindConst listName
  | some l => if l.link then linkKindConst listName else kindConst listName

/-- The generated `Link()` of a list container. -/
def listLink : Option ListVal → Bool
  | some l => l.link
  | none => false

/-- The generated `HREF()` of a list container. -/
def listHREF : Option ListVal → String
  | some l =>
    match l.href with
    | some v => v
    | none => ""
  | none => ""

/-- The generated `GetHREF()` of a list container. -/
def listGetHREF : Option ListVal → String × Bool
  | some l =>
    match l.href with
    | some v => (v, true)
    | none => ("", false)
  | none => ("", false)

/-- The generated `Empty()` of a list container. -/
def listIsEmpty : Option ListVal → Bool
  | none => true
  | some l => l.items.length == 0

/-- The generated `Get(i)` of a list container: nil when the receiver is
nil or the index is out of range (`i < 0 || i >= len(l.items)`). -/
def listGet : Option ListVal → Int → Option ObjVal
  | none, _ => none
  | some l, i =>
    if i < 0 ∨ l.items.length ≤ i then none
    else l.items.get? i.toNat

/-- The loop body of the generated `Each`: runs `f` on each item in order
and stops after the first item on which `f` returns false.  The result is
the trace of items `f` was called on. -/
def eachGo {A : Type} (f : A → Bool) : List A → List A
  | [] => []
  | x :: xs => if f x then x :: eachGo f xs else [x]

/-- The generated `Each(f)`: returns immediately on a nil receiver, else
iterates with short-circuit.  Modelled by its call trace. -/
def listEach (f : ObjVal → Bool) : Option ListVal → List ObjVal
  | none => []
  | some l => eachGo f l.items

/-- The loop body of the generated `Range`, with the running index. -/
def rangeGo {A : Type} (f : Nat → A → Bool) (i : Nat) : List A → List (Nat × A)
  | [] => []
  | x :: xs => if f i x then (i, x) :: rangeGo f (i + 1) xs else [(i, x)]

/-- The generated `Range(f)`: returns immediately on a nil receiver, else
iterates index-item pairs with short-circuit.  Modelled by its call
trace. -/
def listRange (f : Nat → ObjVal → Bool) : Option ListVal → List (Nat × ObjVal)
  | none => []
  | some l => rangeGo f 0 l.items

/-- The runtime value of the generated version `Metadata` struct: one
nullable field `serverVersion`. -/
structure MetadataVal where
  serverVersion : Option String
deriving DecidableEq, Repr

/-- The generated `Metadata.ServerVersion()`. -/
def metadataServerVersion : Option MetadataVal → String
  | some m =>
    match m.serverVersion with
    | some v => v
    | none => ""
  | none => ""

/-- The generated `Metadata.GetServerVersion()`. -/
def metadataGetServerVersion : Option MetadataVal → String × Bool
  | some m =>
    match m.serverVersion with
    | some v => (v, true)
    | none => ("", false)
  | none => ("", false)

/-! ## A heap model of Go slices, for `Slice()`

The generated `Slice()` allocates a fresh backing array (`make`) and copies
the items into it, so that the caller may mutate the returned slice without
affecting the list.  Allocation and aliasing are modelled by a heap of
slice cells addressed by `Nat`; a Go slice value is an address into the
heap. -/

/-- A heap of allocated Go slices of `*Object`. -/
structure SliceHeap where
  cells : List (List ObjVal)

/-- `make`: allocate a fresh cell holding `xs` and return its address. -/
def allocSlice (h : SliceHeap) (xs : List ObjVal) : SliceHeap × Nat :=
  (⟨h.cells ++ [xs]⟩, h.cells.length)

/-- Read the contents of a slice cell. -/
def readSlice (h : SliceHeap) (addr : Nat) : List ObjVal :=
  (h.cells.get? addr).getD []

/-- Store `v` at index `i` of the slice at `addr` (a Go `s[i] = v`). -/
def writeSlice (h : SliceHeap) (addr i : Nat) (v : ObjVal) : SliceHeap :=
  ⟨h.cells.set addr ((readSlice h addr).set i v)⟩

/-- A list-container value whose `items` slice lives in the heap. -/
structure HeapListVal where
  href : Option String
  link : Bool
  itemsAddr : Nat

/-- The generated `Slice()`: on a nil receiver `make` an empty slice; else
`make` a slice of the same length and `copy` the items into it.  Returns
the new heap and the address of the returned slice. -/
def sliceMethod (h : SliceHeap) : Option HeapListVal → SliceHeap × Nat
  | none => allocSlice h []
  | some l => allocSlice h (readSlice h l.itemsAddr)

end OcmTypes

namespace OcmServer

open OcmTypes

/-! ## Server adapter routing

Modelled from the spec: the generated server adapter code is not part of
the repository slice (only its tests are), so the routing contract of
§4.6.4 is modelled here: resources form a tree, a locator without an
identifier is a literal path segment, a locator with an identifier matches
any non-empty segment, methods are verb bindings at a resource, trailing
slashes are not tolerated, and unknown segments at any depth yield 404
without invoking the user implementation.  Paths and segments are lists of
characters. -/

/-- An HTTP verb of the routing table. -/
inductive Verb where
  | get : Verb
  | post : Verb
  | patch : Verb
  | delete : Verb
deriving DecidableEq, Repr

/-- Modelled from the spec: the routing tree of a generated server adapter.
A node carries the verbs of the methods bound at the resource, the literal
locator segments, and the optional identifier locator. -/
inductive RTree where
  | node (methods : List Verb) (lits : List (List Char × RTree))
      (idChild : Option RTree) : RTree

/-- The outcome of dispatching one request: the user implementation was
invoked, or the adapter answered 404 or 405 without invoking it. -/
inductive HttpAnswer where
  | invoked : HttpAnswer
  | notFound : HttpAnswer
  | methodNotAllowed : HttpAnswer
deriving DecidableEq, Repr

/-- Look a literal segment up among the literal locators. -/
def lookupLit (s : List Char) : List (List Char × RTree) → Option RTree
  | [] => none
  | (k, c) :: rest => if k = s then some c else lookupLit s rest

/-- Modelled from the spec: dispatch a request along the remaining path
segments.  An empty segment matches neither a literal locator (locator
names are non-empty) nor the identifier locator, so it falls to 404. -/
def dispatch (v : Verb) : List (List Char) → RTree → HttpAnswer
  | [], .node ms _ _ => if v ∈ ms then .invoked else .methodNotAllowed
  | s :: rest, .node _ lits idc =>
    match lookupLit s lits with
    | some c => dispatch v rest c
    | none =>
      if s = [] then .notFound
      else
        match idc with
        | some c => dispatch v rest c
        | none => .notFound

/-- Follow the path segments through the locator tree, ignoring verbs: the
resource the path names, if any. -/
def walk : List (List Char) → RTree → Option RTree
  | [], t => some t
  | s :: rest, .node _ lits idc =>
    match lookupLit s lits with
    | some c => walk rest c
    | none =>
      if s = [] then none
      else
        match idc with
        | some c => walk rest c
        | none => none

/-- Split a character list into path segments at every slash.  The result
is always non-empty; a trailing slash yields a trailing empty segment. -/
def segsOf : List Char → List (List Char)
  | [] => [[]]
  | c :: cs =>
    if c = '/' then [] :: segsOf cs
    else
      match segsOf cs with
      | s :: ss => (c :: s) :: ss
      | [] => [[c]]

/-- Parse a request path: it must start with a slash; the remainder is
split into segments. -/
def parsePath : List Char → Option (List (List Char))
  | c :: cs => if c = '/' then some (segsOf cs) else none
  | [] => none

/-- Serve one request against the adapter for the given routing tree. -/
def serve (t : RTree) (v : Verb) (p : List Char) : HttpAnswer :=
  match parsePath p with
  | none => .notFound
  | some segs => dispatch v segs t

/-- The resource named by a request path, if any: `none` when the path is
malformed or names an unknown resource or sub-resource at some depth. -/
def walkPath (t : RTree) (p : List Char) : Option RTree :=
  match parsePath p with
  | none => none
  | some segs => walk segs t

mutual
/-- Well-formedness of a routing tree: every literal locator segment is
non-empty (model invariant 1: names are non-empty). -/
def RTree.wfB : RTree → Bool
  | .node _ lits idc =>
    wfLits lits &&
    (match idc with
     | some c => c.wfB
     | none => true)

/-- Well-formedness of a literal locator list. -/
def wfLits : List (List Char × RTree) → Bool
  | [] => true
  | (k, c) :: rest => !k.isEmpty && c.wfB && wfLits rest
end

/-! The routing tree of the generated test adapter exercised by the server
tests: root → clusters (List, Add) → one cluster by id (Get, Update,
Delete) → groups, identity_providers (List, Add) → one provider by id. -/

/-- The `identity_providers` sub-resource of a cluster. -/
def idpTree : RTree :=
  .node [.get, .post] [] (some (.node [.get] [] none))

/-- The `groups` sub-resource of a cluster. -/
def groupsTree : RTree :=
  .node [.get] [] (some (.node [.get] [] none))

/-- A single cluster, reached through the id locator of `clusters`. -/
def clusterTree : RTree :=
  .node [.get, .patch, .delete]
    [("groups".toList, groupsTree), ("identity_providers".toList, idpTree)]
    none

/-- The `clusters` collection resource. -/
def clustersTree : RTree :=
  .node [.get, .post] [] (some clusterTree)

/-- The root resource of the test model: no methods, one literal locator
`clusters`. -/
def rootTree : RTree :=
  .node [] [("clusters".toList, clustersTree)] none

/-! ## The List method response envelope

Modelled from the spec: the generated List method handler code is not part
of the repository slice, so §4.6.4 step 4 is modelled: the envelope is
`(page, size, total, items)` taken from the response object the handler
configured, not from the query parameters. -/

/-- The request object of a generated List method: the parsed `page` and
`size` query parameters. -/
structure ListServerRequest where
  page : Int
  size : Int
deriving DecidableEq, Repr

/-- The response object of a generated List method, as the handler leaves
it; unset fields are the Go zero values. -/
structure ListServerResponse (I : Type) where
  page : Int
  size : Int
  total : Int
  items : List I
deriving DecidableEq, Repr

/-- The serialized `(page, size, total, items)` envelope. -/
structure ListEnvelope (I : Type) where
  page : Int
  size : Int
  total : Int
  items : List I
deriving DecidableEq, Repr

/-- Modelled from the spec: parsing of the List query parameters — `page`
and `size` default to zero when absent. -/
def parseListQuery (qpage qsize : Option Int) : ListServerRequest :=
  { page := qpage.getD 0, size := qsize.getD 0 }

/-- Modelled from the spec: on success the adapter serializes the response
object; `page` and `size` echo the response's configured values, whatever
the handler chose, and are not defaulted from the request. -/
def renderListEnvelope {I : Type} (_req : ListServerRequest)
    (resp : ListServerResponse I) : ListEnvelope I :=
  { page := resp.page, size := resp.size, total := resp.total
    items := resp.items }

/-- The `MyTestClustersServer.List` handler of the server tests: one item
named `test-list-clusters`, page and size echoed from the request, total
set to the items' length. -/
def myTestClustersList (req : ListServerRequest) : ListServerResponse String :=
  let items := ["test-list-clusters"]
  { items := items, page := req.page, size := req.size
    total := (items.length : Int) }

/-- End to end: parse the query, run the test handler, render the
envelope. -/
def serveClustersList (qpage qsize : Option Int) : ListEnvelope String :=
  let req := parseListQuery qpage qsize
  renderListEnvelope req (myTestClustersList req)

end OcmServer

/-! ## Claims -/

open OcmTypes OcmServer

/-- C1: for every attribute, the field form and getter form chosen by the
types generator obey the selection table of §4.4: a scalar-typed attribute
gets a nullable field form and a value getter form; a struct-typed
attribute gets nullable for both; a list-typed attribute with link=false
gets nullable for both; a list-typed attribute with link=true gets the
list-container form for both; a map-typed attribute gets nullable for
both (and in all five cases no error is reported). -/
theorem fieldType_getterType_follow_selection_table (a : Attr) :
    (a.typ.isScalar = true →
      fieldType a = (.nullableRef a.typ, false) ∧
      getterType a = (.valueRef a.typ, false)) ∧
    (a.typ.isStruct = true →
      fieldType a = (.nullableRef a.typ, false) ∧
      getterType a = (.nullableRef a.typ, false)) ∧
    (a.typ.isList = true → a.link = false →
      fieldType a = (.nullableRef a.typ, false) ∧
      getterType a = (.nullableRef a.typ, false)) ∧
    (a.typ.isList = true → a.link = true →
      fieldType a = (.listRef a.typ, false) ∧
      getterType a = (.listRef a.typ, false)) ∧
    (a.typ.isMap = true →
      fieldType a = (.nullableRef a.typ, false) ∧
      getterType a = (.nullableRef a.typ, false)) := by
  obtain ⟨nm, t, lk⟩ := a
  cases t <;> cases lk <;>
    simp [fieldType, getterType, MType.isScalar, MType.isStruct,
      MType.isList, MType.isMap]

/-- C1 witness: the selection table at a concrete scalar attribute. -/
theorem fieldType_getterType_follow_selection_table_witness :
    MType.isScalar .stringScalar = true ∧
    fieldType ⟨"name", .stringScalar, false⟩ = (.nullableRef .stringScalar, false) ∧
    getterType ⟨"name", .stringScalar, false⟩ = (.valueRef .stringScalar, false) :=
  ⟨rfl,
   (fieldType_getterType_follow_selection_table ⟨"name", .stringScalar, false⟩).1 rfl⟩

/-- C10: `getterType` and `fieldType` are total; for an attribute whose
type is none of scalar, struct, list, or map, each reports an error
through the reporter (second component `true`) and returns the non-nil
empty type reference instead of failing. -/
theorem getterType_fieldType_report_and_fall_back (a : Attr)
    (h1 : a.typ.isScalar = false) (h2 : a.typ.isStruct = false)
    (h3 : a.typ.isList = false) (h4 : a.typ.isMap = false) :
    getterType a = (.emptyRef, true) ∧ fieldType a = (.emptyRef, true) := by
  simp [getterType, fieldType, h1, h2, h3, h4]

/-- C10 witness: an enum-typed attribute hits the error fallback of both
helpers. -/
theorem getterType_fieldType_report_and_fall_back_witness :
    MType.isScalar (.enum "state") = false ∧
    getterType ⟨"state", .enum "state", false⟩ = (.emptyRef, true) ∧
    fieldType ⟨"state", .enum "state", false⟩ = (.emptyRef, true) :=
  ⟨rfl,
   (getterType_fieldType_report_and_fall_back ⟨"state", .enum "state", false⟩
      rfl rfl rfl rfl).1,
   (getterType_fieldType_report_and_fall_back ⟨"state", .enum "state", false⟩
      rfl rfl rfl rfl).2⟩

/-- C4: when `Run` reaches its final error check (no step failed early)
with a positive accumulated error count it fails with "there was 1 error"
for count 1 and "there were N errors" for count N > 1; with count zero it
returns no error. -/
theorem run_error_count_messages (n : Nat) :
    (n = 1 → runOutcome none n = some "there was 1 error") ∧
    (1 < n → runOutcome none n = some ("there were " ++ toString n ++ " errors")) ∧
    (n = 0 → runOutcome none n = none) := by
  refine ⟨fun h => ?_, fun h => ?_, fun h => ?_⟩ <;> subst_eqs <;>
    simp [runOutcome]
  · omega

/-- C4 witness: the three branches at counts 1, 2 and 0. -/
theorem run_error_count_messages_witness :
    runOutcome none 1 = some "there was 1 error" ∧
    runOutcome none 2 = some "there were 2 errors" ∧
    runOutcome none 0 = none :=
  ⟨(run_error_count_messages 1).1 rfl,
   (run_error_count_messages 2).2.1 (by omega),
   (run_error_count_messages 0).2.2 rfl⟩

/-- C7: `TypesGeneratorBuilder.Build` returns an error (and no generator)
whenever the reporter, model, output, packages calculator, names
calculator, or types calculator is unset; when all six are provided it
returns a generator carrying exactly those values (and a zero error
count) and no error. -/
theorem build_checks_mandatory_parameters {R M P N T : Type}
    (b : GeneratorBuilder R M P N T) :
    ((b.reporter = none ∨ b.model = none ∨ b.output = "" ∨
      b.packages = none ∨ b.names = none ∨ b.types = none) →
        ∃ msg, b.build = .error msg) ∧
    (∀ r m p n t, b.reporter = some r → b.model = some m → b.output ≠ "" →
      b.packages = some p → b.names = some n → b.types = some t →
      b.build = .ok ⟨r, 0, m, b.output, p, n, t⟩) := by
  obtain ⟨rep, mo, out, pk, nms, ty⟩ := b
  by_cases hout : out = "" <;>
    cases rep <;> cases mo <;> cases pk <;> cases nms <;> cases ty <;>
    simp [GeneratorBuilder.build, hout]
  exact fun r m p n t h1 h2 h3 h4 h5 => ⟨h1, h2, h3, h4, h5⟩

/-- C7 witness: a fully configured builder builds the expected generator;
dropping the reporter yields an error. -/
theorem build_checks_mandatory_parameters_witness :
    (GeneratorBuilder.build
      (⟨some 1, some 2, "out", some 3, some 4, some 5⟩ :
        GeneratorBuilder Nat Nat Nat Nat Nat) =
      .ok ⟨1, 0, 2, "out", 3, 4, 5⟩) ∧
    (∃ msg, GeneratorBuilder.build
      (⟨none, some 2, "out", some 3, some 4, some 5⟩ :
        GeneratorBuilder Nat Nat Nat Nat Nat) = .error msg) :=
  ⟨(build_checks_mandatory_parameters
      (⟨some 1, some 2, "out", some 3, some 4, some 5⟩ :
        GeneratorBuilder Nat Nat Nat Nat Nat)).2
      1 2 3 4 5 rfl rfl (by decide) rfl rfl rfl,
   (build_checks_mandatory_parameters
      (⟨none, some 2, "out", some 3, some 4, some 5⟩ :
        GeneratorBuilder Nat Nat Nat Nat Nat)).1 (Or.inl rfl)⟩

/-- C3 counterexample: for a concrete struct not marked `class` (no
attributes), the template nevertheless emits the `<Name>List` kind
constants, so "list kind constants are emitted iff the struct is class"
is false at this input. -/
theorem listKindConsts_emitted_for_non_class :
    ¬ (EmitItem.listKindConsts ∈ generateStructTypeSource false [] ↔
        false = true) := by
  decide

/-- C3 amended: the three `<Name>List` kind constants are emitted for
every struct, class or not (the template leaves them outside the
`IsClass` guard); what the `class` mark controls on the list container is
its Kind/Link/HREF accessor block, emitted iff the struct is a class. -/
theorem listKindConsts_always_listClassAccessors_iff_class
    (isClass : Bool) (attrs : List Attr) :
    EmitItem.listKindConsts ∈ generateStructTypeSource isClass attrs ∧
    (EmitItem.listClassAccessors ∈ generateStructTypeSource isClass attrs ↔
      isClass = true) := by
  cases isClass <;> simp [generateStructTypeSource]

/-- C2 counterexample: a struct with one struct-typed attribute whose
value is set (a non-nil pointer).  The generated `Empty()` emits no
conjunct for struct-typed attributes and returns true, although the
receiver is present and the field is not in its zero state; so "Empty()
returns true exactly when the receiver is absent or every field is in its
zero/empty state" is false at this input. -/
theorem structEmpty_ignores_struct_fields :
    ¬ (structEmpty false [⟨"cluster", .structure_ "Cluster" true, false⟩]
        (some (.mk none none false
          [.structField (some (.mk none none false []))])) = true ↔
       ((some (ObjVal.mk none none false
          [.structField (some (.mk none none false []))])).isNone = true ∨
        allFieldsZero false
          (.mk none none false
            [.structField (some (.mk none none false []))]) = true)) := by
  decide

/-- The type-kind predicates of `MType` are mutually exclusive:
consequences of `isScalar`. -/
theorem MType.not_struct_of_scalar {t : MType} (h : t.isScalar = true) :
    t.isStruct = false := by
  cases t <;> simp_all [MType.isScalar, MType.isStruct]

/-- Consequences of `isStruct`. -/
theorem MType.excl_of_struct {t : MType} (h : t.isStruct = true) :
    t.isScalar = false ∧ t.isList = false ∧ t.isMap = false := by
  cases t <;> simp_all [MType.isScalar, MType.isStruct, MType.isList, MType.isMap]

/-- Consequences of `isList`. -/
theorem MType.excl_of_list {t : MType} (h : t.isList = true) :
    t.isScalar = false ∧ t.isStruct = false ∧ t.isMap = false := by
  cases t <;> simp_all [MType.isScalar, MType.isStruct, MType.isList, MType.isMap]

/-- Consequences of `isMap`. -/
theorem MType.excl_of_map {t : MType} (h : t.isMap = true) :
    t.isScalar = false ∧ t.isStruct = false ∧ t.isList = false := by
  cases t <;> simp_all [MType.isScalar, MType.isStruct, MType.isList, MType.isMap]

/-- On a shape-matching field value, the conjunct the template emits
coincides with the checked-zero condition. -/
theorem emptyConjunct_eq_checkedFieldZero (a : Attr) (v : FieldVal)
    (hs : shapeMatches a v = true) :
    emptyConjunct a v = checkedFieldZero a v := by
  cases v with
  | scalarField w =>
    simp only [shapeMatches] at hs
    simp [emptyConjunct, checkedFieldZero, hs, MType.not_struct_of_scalar hs,
      scalarIsNil, fieldIsZero]
  | structField w =>
    simp only [shapeMatches] at hs
    obtain ⟨h1, h2, h3⟩ := MType.excl_of_struct hs
    simp [emptyConjunct, checkedFieldZero, hs, h1, h2, h3]
  | listLinkField w =>
    simp only [shapeMatches, Bool.and_eq_true] at hs
    obtain ⟨h1, h2, h3⟩ := MType.excl_of_list hs.1
    simp [emptyConjunct, checkedFieldZero, hs.1, hs.2, h1, h2,
      linkFieldLen, fieldIsZero]
  | listField w =>
    simp only [shapeMatches, Bool.and_eq_true, Bool.not_eq_true'] at hs
    obtain ⟨h1, h2, h3⟩ := MType.excl_of_list hs.1
    cases w <;>
      simp [emptyConjunct, checkedFieldZero, hs.1, hs.2, h1, h2,
        sliceFieldLen, fieldIsZero]
  | mapField w =>
    simp only [shapeMatches] at hs
    obtain ⟨h1, h2, h3⟩ := MType.excl_of_map hs
    cases w <;>
      simp [emptyConjunct, checkedFieldZero, hs, h1, h2, h3,
        mapFieldLen, fieldIsZero]

/-- C2 amended: the generated `Empty()` returns true exactly when the
receiver is absent or, for a present receiver, the `id` field is nil (for
class structs; `href` and `link` are not examined) and every scalar field
is nil, every list field has length zero and every map field has length
zero — struct-typed fields are not examined.  The hypothesis says each
runtime field value has the shape of its attribute's field form. -/
theorem structEmpty_iff_checked_fields (isClass : Bool) (attrs : List Attr)
    (o : Option ObjVal)
    (hshape : ∀ obj, o = some obj →
      ∀ p ∈ attrs.zip obj.fields, shapeMatches p.1 p.2 = true) :
    structEmpty isClass attrs o = true ↔
      (o.isNone = true ∨ ∃ obj, o = some obj ∧
        ((!isClass || obj.id.isNone) &&
         ((attrs.zip obj.fields).all fun p => checkedFieldZero p.1 p.2)) = true) := by
  cases o with
  | none => simp [structEmpty]
  | some obj =>
    have hgen : ∀ (l : List (Attr × FieldVal)),
        (∀ p ∈ l, shapeMatches p.1 p.2 = true) →
        (l.all fun p => emptyConjunct p.1 p.2) =
        (l.all fun p => checkedFieldZero p.1 p.2) := by
      intro l
      induction l with
      | nil => intro _; rfl
      | cons x xs ih =>
        intro hl
        simp only [List.all_cons]
        rw [emptyConjunct_eq_checkedFieldZero x.1 x.2
              (hl x (List.mem_cons_self x xs)),
          ih (fun p hp => hl p (List.mem_cons_of_mem x hp))]
    have hall := hgen (attrs.zip obj.fields) (hshape obj rfl)
    constructor
    · intro h
      have h2 : ((!isClass || obj.id.isNone) &&
          ((attrs.zip obj.fields).all fun p => emptyConjunct p.1 p.2)) = true := h
      rw [hall] at h2
      exact Or.inr ⟨obj, rfl, h2⟩
    · rintro (h | ⟨obj2, heq, h⟩)
      · exact absurd h (by simp)
      · injection heq with h3
        subst h3
        show ((!isClass || obj.id.isNone) &&
          ((attrs.zip obj.fields).all fun p => emptyConjunct p.1 p.2)) = true
        rw [hall]
        exact h

/-- C2 amended witness: a concrete class struct with one nil scalar field
is empty; the same struct with the scalar set is not. -/
theorem structEmpty_iff_checked_fields_witness :
    structEmpty true [⟨"name", .stringScalar, false⟩]
      (some (.mk none none false [.scalarField none])) = true :=
  (structEmpty_iff_checked_fields true [⟨"name", .stringScalar, false⟩]
      (some (.mk none none false [.scalarField none]))
      (by intro obj hobj; injection hobj with h; subst h; decide)).mpr
    (Or.inr ⟨_, rfl, by decide⟩)

/-- C8: every accessor emitted on generated struct, list-container and
Metadata types is total on a nil receiver: `Kind()` returns the Nil kind
constant, `ID()`, `HREF()` and `ServerVersion()` return the empty string,
value getters return the zero value, probing getters return the zero
value with a false flag, `Link()` returns false, `Len()` returns 0,
`Empty()` returns true, `Get(i)` returns nil, and `Each`/`Range` return
without calling the callback (their call traces are empty). -/
theorem generated_accessors_total_on_nil_receiver :
    (∀ name, objKind name none = nilKindConst name) ∧
    objID none = "" ∧
    objGetID none = ("", false) ∧
    objLink none = false ∧
    objHREF none = "" ∧
    objGetHREF none = ("", false) ∧
    (∀ (S V : Type) (zero : V) (f : S → Option V),
      valueGetter zero f none = zero) ∧
    (∀ (S V : Type) (f : S → Option V), refGetter f none = none) ∧
    (∀ (S V : Type) (zero : V) (f : S → Option V),
      probeGetter zero f none = (zero, false)) ∧
    (∀ name, listKind name none = nilKindConst name) ∧
    listLink none = false ∧
    listHREF none = "" ∧
    listGetHREF none = ("", false) ∧
    listLen none = 0 ∧
    listIsEmpty none = true ∧
    (∀ i, listGet none i = none) ∧
    (∀ f, listEach f none = []) ∧
    (∀ f, listRange f none = []) ∧
    metadataServerVersion none = "" ∧
    metadataGetServerVersion none = ("", false) :=
  ⟨fun _ => rfl, rfl, rfl, rfl, rfl, rfl,
   fun _ _ _ _ => rfl, fun _ _ _ => rfl, fun _ _ _ _ => rfl,
   fun _ => rfl, rfl, rfl, rfl, rfl, rfl,
   fun _ => rfl, fun _ => rfl, fun _ => rfl, rfl, rfl⟩

/-- C9: the generated `Slice()` on a nil list allocates and returns a
fresh empty slice (a real allocation of length 0, never the nil slice);
on a non-nil list it returns a fresh copy of the items at a new address,
so that writing through the returned slice leaves the list's internal
items unchanged. -/
theorem sliceMethod_returns_fresh_copy :
    (∀ h : SliceHeap,
      readSlice (sliceMethod h none).1 (sliceMethod h none).2 = [] ∧
      (sliceMethod h none).2 < (sliceMethod h none).1.cells.length) ∧
    (∀ (h : SliceHeap) (l : HeapListVal), l.itemsAddr < h.cells.length →
      readSlice (sliceMethod h (some l)).1 (sliceMethod h (some l)).2 =
        readSlice h l.itemsAddr ∧
      (sliceMethod h (some l)).2 ≠ l.itemsAddr ∧
      (∀ i v, readSlice
          (writeSlice (sliceMethod h (some l)).1 (sliceMethod h (some l)).2 i v)
          l.itemsAddr = readSlice h l.itemsAddr)) := by
  constructor
  · intro h
    constructor
    · show ((h.cells ++ [[]]).get? h.cells.length).getD [] = []
      rw [List.get?_concat_length]
      rfl
    · show h.cells.length < (h.cells ++ [[]]).length
      simp [List.length_append]
  · intro h l hlt
    have hread : readSlice (sliceMethod h (some l)).1 (sliceMethod h (some l)).2 =
        readSlice h l.itemsAddr := by
      show ((h.cells ++ [readSlice h l.itemsAddr]).get? h.cells.length).getD [] =
        readSlice h l.itemsAddr
      rw [List.get?_concat_length]
      rfl
    have hne : (sliceMethod h (some l)).2 ≠ l.itemsAddr := by
      show h.cells.length ≠ l.itemsAddr
      omega
    refine ⟨hread, hne, fun i v => ?_⟩
    show (((sliceMethod h (some l)).1.cells.set (sliceMethod h (some l)).2
        _).get? l.itemsAddr).getD [] = readSlice h l.itemsAddr
    rw [List.get?_set_ne _ _ (fun he => hne he)]
    show ((h.cells ++ [readSlice h l.itemsAddr]).get? l.itemsAddr).getD [] =
      readSlice h l.itemsAddr
    rw [List.get?_append hlt]
    rfl

/-- An empty segment matches no literal locator of a well-formed locator
list. -/
theorem lookupLit_nil_of_wf (lits : List (List Char × RTree))
    (hw : wfLits lits = true) : lookupLit [] lits = none := by
  induction lits with
  | nil => rfl
  | cons x rest ih =>
    obtain ⟨k, c⟩ := x
    simp only [wfLits, Bool.and_eq_true, Bool.not_eq_true'] at hw
    simp only [lookupLit]
    rw [if_neg (by simpa [List.isEmpty_iff] using hw.1.1)]
    exact ih hw.2

/-- Well-formedness descends through literal locator lookup. -/
theorem wf_of_lookupLit (lits : List (List Char × RTree)) (s : List Char)
    (c : RTree) (hw : wfLits lits = true) (hl : lookupLit s lits = some c) :
    c.wfB = true := by
  induction lits with
  | nil => simp [lookupLit] at hl
  | cons x rest ih =>
    obtain ⟨k, c2⟩ := x
    simp only [wfLits, Bool.and_eq_true] at hw
    simp only [lookupLit] at hl
    by_cases hk : k = s
    · rw [if_pos hk] at hl
      injection hl with h
      subst h
      exact hw.1.2
    · rw [if_neg hk] at hl
      exact ih hw.2 hl

/-- `segsOf` never returns the empty list. -/
theorem segsOf_ne_nil (cs : List Char) : segsOf cs ≠ [] := by
  cases cs with
  | nil => simp [segsOf]
  | cons c cs =>
    simp only [segsOf]
    by_cases hc : c = '/'
    · simp [hc]
    · rw [if_neg hc]
      cases hseg : segsOf cs <;> simp [hseg]

/-- The one-step unfolding of `segsOf` on a cons. -/
theorem segsOf_cons (c : Char) (cs : List Char) :
    segsOf (c :: cs) =
      if c = '/' then [] :: segsOf cs
      else
        match segsOf cs with
        | s :: ss => (c :: s) :: ss
        | [] => [[c]] := rfl

/-- A character list ending in a slash splits into at least two segments,
the last of which is empty. -/
theorem segsOf_last_of_slash (cs : List Char) (h : cs.getLast? = some '/') :
    (segsOf cs).getLast? = some [] ∧ 2 ≤ (segsOf cs).length := by
  induction cs with
  | nil => simp at h
  | cons c cs ih =>
    cases cs with
    | nil =>
      simp only [List.getLast?_singleton, Option.some.injEq] at h
      subst h
      decide
    | cons d ds =>
      rw [List.getLast?_cons_cons] at h
      have ih2 := ih h
      cases hseg : segsOf (d :: ds) with
      | nil => exact absurd hseg (segsOf_ne_nil _)
      | cons s ss =>
        rw [hseg] at ih2
        rw [segsOf_cons, hseg]
        by_cases hc : c = '/'
        · rw [if_pos hc, List.getLast?_cons_cons]
          refine ⟨ih2.1, ?_⟩
          simp only [List.length_cons]
          omega
        · rw [if_neg hc]
          show ((c :: s) :: ss).getLast? = some [] ∧
            2 ≤ ((c :: s) :: ss).length
          cases ss with
          | nil => simp at ih2
          | cons s2 ss2 =>
            rw [List.getLast?_cons_cons] at ih2 ⊢
            refine ⟨ih2.1, ?_⟩
            simp only [List.length_cons]
            omega

/-- When the remaining segments end in an empty segment, following them
through a well-formed tree fails: empty segments match nothing. -/
theorem walk_none_of_last_empty (segs : List (List Char)) :
    ∀ t : RTree, t.wfB = true → segs.getLast? = some [] →
      walk segs t = none := by
  induction segs with
  | nil =>
    intro t _ h
    simp at h
  | cons s rest ih =>
    intro t hwf hlast
    obtain ⟨ms, lits, idc⟩ := t
    unfold RTree.wfB at hwf
    simp only [Bool.and_eq_true] at hwf
    cases rest with
    | nil =>
      simp only [List.getLast?_singleton, Option.some.injEq] at hlast
      subst hlast
      simp only [walk]
      rw [lookupLit_nil_of_wf lits hwf.1]
      rfl
    | cons r2 rs =>
      rw [List.getLast?_cons_cons] at hlast
      simp only [walk]
      cases hlook : lookupLit s lits with
      | some c =>
        simp only [hlook]
        exact ih c (wf_of_lookupLit lits s c hwf.1 hlook) hlast
      | none =>
        simp only [hlook]
        by_cases hs : s = []
        · simp [hs]
        · rw [if_neg hs]
          cases idc with
          | some c => exact ih c hwf.2 hlast
          | none => rfl

/-- When the segments name no resource, dispatch answers 404 and never
reaches a method invocation. -/
theorem dispatch_notFound_of_walk_none (segs : List (List Char)) :
    ∀ (t : RTree) (v : Verb), walk segs t = none →
      dispatch v segs t = .notFound := by
  induction segs with
  | nil =>
    intro t v h
    simp [walk] at h
  | cons s rest ih =>
    intro t v h
    obtain ⟨ms, lits, idc⟩ := t
    simp only [walk] at h
    simp only [dispatch]
    cases hlook : lookupLit s lits with
    | some c =>
      simp only [hlook] at h ⊢
      exact ih c v h
    | none =>
      simp only [hlook] at h ⊢
      by_cases hs : s = []
      · simp [hs]
      · rw [if_neg hs] at h ⊢
        cases idc with
        | some c => exact ih c v h
        | none => rfl

/-- C5: for every server adapter over a well-formed routing tree (locator
names are non-empty) and every request whose path either ends in a slash
or names an unknown resource or unknown sub-resource at any depth
(`walkPath` finds no resource), the adapter answers 404; the user
implementation is invoked only on the `invoked` outcome, so it is not
invoked here. -/
theorem server_answers_404_without_invoking (t : RTree) (v : Verb)
    (p : List Char) (hwf : t.wfB = true)
    (h : p.getLast? = some '/' ∨ walkPath t p = none) :
    serve t v p = .notFound := by
  rcases h with h | h
  · cases p with
    | nil => simp at h
    | cons c cs =>
      simp only [serve, parsePath]
      by_cases hc : c = '/'
      · rw [if_pos hc]
        cases cs with
        | nil =>
          exact dispatch_notFound_of_walk_none _ t v
            (walk_none_of_last_empty _ t hwf (by decide))
        | cons d ds =>
          rw [List.getLast?_cons_cons] at h
          exact dispatch_notFound_of_walk_none _ t v
            (walk_none_of_last_empty _ t hwf (segsOf_last_of_slash _ h).1)
      · rw [if_neg hc]
  · simp only [walkPath] at h
    simp only [serve]
    cases hp : parsePath p with
    | none => rfl
    | some segs =>
      rw [hp] at h
      exact dispatch_notFound_of_walk_none segs t v h

/-- C5 witness: the routing tree of the generated test adapter answers
404 for `/clusters/` (trailing slash), `/foo` (unknown resource) and
`/clusters/123/foo` (unknown sub-resource). -/
theorem server_answers_404_without_invoking_witness :
    rootTree.wfB = true ∧
    serve rootTree .get "/clusters/".toList = .notFound ∧
    serve rootTree .get "/foo".toList = .notFound ∧
    serve rootTree .get "/clusters/123/foo".toList = .notFound :=
  ⟨rfl,
   server_answers_404_without_invoking rootTree .get "/clusters/".toList rfl
     (Or.inl rfl),
   server_answers_404_without_invoking rootTree .get "/foo".toList rfl
     (Or.inr rfl),
   server_answers_404_without_invoking rootTree .get "/clusters/123/foo".toList
     rfl (Or.inr rfl)⟩

/-- Sanity: the known test paths do reach the user implementation. -/
theorem server_invokes_known_paths :
    serve rootTree .get "/clusters".toList = .invoked ∧
    serve rootTree .get "/clusters/123".toList = .invoked ∧
    serve rootTree .get "/clusters/123/identity_providers".toList = .invoked :=
  ⟨rfl, rfl, rfl⟩

/-- C6: for every successful List method invocation the response envelope
`(page, size, total, items)` carries exactly the values the handler set
on the response object (including zero) — the envelope does not depend on
the query parameters of the request — and the end-to-end test scenarios
echo page and size as configured by the test handler. -/
theorem list_envelope_echoes_response (I : Type) (req req2 : ListServerRequest)
    (resp : ListServerResponse I) :
    renderListEnvelope req resp =
      ⟨resp.page, resp.size, resp.total, resp.items⟩ ∧
    renderListEnvelope req resp = renderListEnvelope req2 resp ∧
    serveClustersList none none = ⟨0, 0, 1, ["test-list-clusters"]⟩ ∧
    serveClustersList (some 2) none = ⟨2, 0, 1, ["test-list-clusters"]⟩ ∧
    serveClustersList (some 1) (some 2) = ⟨1, 2, 1, ["test-list-clusters"]⟩ :=
  ⟨rfl, rfl, rfl, rfl, rfl⟩

/-- C9 witness: a concrete heap with one allocated items slice. -/
theorem sliceMethod_returns_fresh_copy_witness :
    (⟨none, false, 0⟩ : HeapListVal).itemsAddr <
      (⟨[[ObjVal.mk none none false []]]⟩ : SliceHeap).cells.length ∧
    readSlice
      (sliceMethod ⟨[[ObjVal.mk none none false []]]⟩ (some ⟨none, false, 0⟩)).1
      (sliceMethod ⟨[[ObjVal.mk none none false []]]⟩ (some ⟨none, false, 0⟩)).2 =
      readSlice ⟨[[ObjVal.mk none none false []]]⟩ 0 ∧
    (sliceMethod ⟨[[ObjVal.mk none none false []]]⟩ (some ⟨none, false, 0⟩)).2 ≠ 0 :=
  ⟨Nat.zero_lt_one,
   ((sliceMethod_returns_fresh_copy.2 ⟨[[ObjVal.mk none none false []]]⟩
      ⟨none, false, 0⟩ Nat.zero_lt_one)).1,
   ((sliceMethod_returns_fresh_copy.2 ⟨[[ObjVal.mk none none false []]]⟩
      ⟨none, false, 0⟩ Nat.zero_lt_one)).2.1⟩
